import Mathlib

/-!
Verification of the CFFmpeg interoperability shim
(Sources/CFFmpeg/include/CFFmpeg.h and CFFmpegHelpers.c).

The shim re-exports a handful of FFmpeg macros as linkable symbols and
declares one side-data lookup helper.  We embed the translation unit
shallowly: C `int` values are `Int` normalized to two's-complement 32-bit
range where overflow can matter, the FFmpeg macros the shim expands are
given as Lean definitions mirroring their expansions in libavutil, and the
structures the side-data helper touches are records holding exactly the
fields the shim reads.
-/

namespace HDRPlay

/-- Two's-complement normalization of an integer into the signed 32-bit
range, used where C `int` arithmetic can overflow.  The literals are
2^31 and 2^32. -/
def wrap32 (n : Int) : Int := (n + 2147483648) % 4294967296 - 2147483648

/-- FFmpeg `MKTAG(a,b,c,d)` from libavutil/macros.h:
`(a) | ((b) << 8) | ((c) << 16) | ((unsigned)(d) << 24)` on byte
arguments. -/
def MKTAG (a b c d : Nat) : Int :=
  ((a + b * 256 + c * 65536 + d * 16777216 : Nat) : Int)

/-- FFmpeg `AVERROR(e)` from libavutil/error.h.  On POSIX platforms
`EDOM > 0`, so the macro expands to `(-(e))` in C `int` arithmetic. -/
def AVERROR (e : Int) : Int := wrap32 (-e)

/-- FFmpeg `FFERRTAG(a,b,c,d)` from libavutil/error.h:
`(-(int)MKTAG(a, b, c, d))`. -/
def FFERRTAG (a b c d : Nat) : Int := wrap32 (-(MKTAG a b c d))

/-- FFmpeg `AVERROR_EOF` from libavutil/error.h:
`FFERRTAG( 'E','O','F',' ')` (byte values 0x45, 0x4F, 0x46, 0x20). -/
def AVERROR_EOF : Int := FFERRTAG 69 79 70 32

/-- The platform `EAGAIN` error number (11 on Linux per
asm-generic/errno-base.h; it is a positive constant on every POSIX
platform). -/
def EAGAIN : Int := 11

/-- FFmpeg `AV_NOPTS_VALUE` from libavutil/avutil.h:
`((int64_t)UINT64_C(0x8000000000000000))`, i.e. the most negative signed
64-bit value. -/
def AV_NOPTS_VALUE : Int := -9223372036854775808

/-- CFFmpegHelpers.c: `int get_averror_eof(void) { return AVERROR_EOF; }`.
The `Unit` argument stands for the empty C parameter list, so distinct
calls are distinct applications. -/
def get_averror_eof (_ : Unit) : Int := AVERROR_EOF

/-- CFFmpegHelpers.c:
`int averror_from_errno(int err) { return AVERROR(err); }`. -/
def averror_from_errno (err : Int) : Int := AVERROR err

/-- CFFmpegHelpers.c:
`int get_averror_eagain(void) { return AVERROR(EAGAIN); }`. -/
def get_averror_eagain (_ : Unit) : Int := AVERROR EAGAIN

/-- CFFmpegHelpers.c:
`const int64_t AV_NOPTS_VALUE_INT = AV_NOPTS_VALUE;`. -/
def AV_NOPTS_VALUE_INT : Int := AV_NOPTS_VALUE

/-- FFmpeg `AVPacketSideData` (libavcodec/packet.h): a byte buffer, its
size, and a side-data type tag.  The type tag enumeration is embedded as
`Nat`. -/
structure AVPacketSideData where
  data : List Nat
  size : Nat
  type : Nat
deriving DecidableEq, Repr

/-- FFmpeg `AVCodecParameters` (libavcodec/codec_par.h), restricted to
the fields the shim's side-data helper reads: the `coded_side_data`
array, with `nb_coded_side_data` represented by the list's length. -/
structure AVCodecParameters where
  coded_side_data : List AVPacketSideData
deriving DecidableEq, Repr

/-- Modelled from the spec: the body of `get_codec_side_data` is absent
from src/ (CFFmpeg.h only declares
`const AVPacketSideData* get_codec_side_data(const AVCodecParameters *codecpar, enum AVPacketSideDataType type)`).
Per the spec it returns "the first matching side-data entry or a null
indicator" — null when there are zero side-data entries, otherwise a
reference to the first entry whose type tag equals the requested type,
or null when none matches.  A null pointer is embedded as `none`. -/
def get_codec_side_data (codecpar : AVCodecParameters) (ty : Nat) :
    Option AVPacketSideData :=
  codecpar.coded_side_data.find? (fun sd => sd.type == ty)

/-- The function declarations of CFFmpeg.h, in source order. -/
def headerFunctionDeclarations : List String :=
  ["get_averror_eof", "averror_from_errno", "get_averror_eagain",
   "get_codec_side_data"]

/-- The object (constant) declarations of CFFmpeg.h. -/
def headerConstantDeclarations : List String := ["AV_NOPTS_VALUE_INT"]

/-- The mutable global state of the shim's translation unit.  The only
object at file scope is `AV_NOPTS_VALUE_INT`, which is `const`; we carry
its cell explicitly so statelessness of every operation is a theorem
rather than a modelling assumption. -/
structure ShimGlobals where
  av_nopts_value_int : Int
deriving DecidableEq, Repr

/-- The globals as initialized before any call:
`AV_NOPTS_VALUE_INT = AV_NOPTS_VALUE`. -/
def initGlobals : ShimGlobals := ⟨AV_NOPTS_VALUE⟩

/-- `get_averror_eof` with the translation unit's global state threaded
through: the body touches no global. -/
def get_averror_eof_st (u : Unit) (s : ShimGlobals) : Int × ShimGlobals :=
  (get_averror_eof u, s)

/-- `averror_from_errno` with the global state threaded through. -/
def averror_from_errno_st (err : Int) (s : ShimGlobals) : Int × ShimGlobals :=
  (averror_from_errno err, s)

/-- `get_averror_eagain` with the global state threaded through. -/
def get_averror_eagain_st (u : Unit) (s : ShimGlobals) : Int × ShimGlobals :=
  (get_averror_eagain u, s)

/-- `get_codec_side_data` with the global state threaded through. -/
def get_codec_side_data_st (p : AVCodecParameters) (ty : Nat)
    (s : ShimGlobals) : Option AVPacketSideData × ShimGlobals :=
  (get_codec_side_data p ty, s)

/-- Reading the exported constant `AV_NOPTS_VALUE_INT`: a load from the
global cell, leaving the state unchanged. -/
def read_AV_NOPTS_VALUE_INT_st (s : ShimGlobals) : Int × ShimGlobals :=
  (s.av_nopts_value_int, s)

/-- A concrete side-data entry used to instantiate theorems. -/
def sdMDCV : AVPacketSideData := ⟨[1, 2, 3], 3, 3⟩

/-- A concrete codec-parameters value holding exactly one side-data
entry of type tag 3. -/
def paramsOne : AVCodecParameters := ⟨[sdMDCV]⟩

/-- A concrete codec-parameters value with no side data. -/
def paramsEmpty : AVCodecParameters := ⟨[]⟩

theorem wrap32_lb (n : Int) : -2147483648 ≤ wrap32 n := by
  unfold wrap32
  have h := Int.emod_nonneg (n + 2147483648) (by norm_num : (4294967296 : Int) ≠ 0)
  omega

theorem wrap32_ub (n : Int) : wrap32 n < 2147483648 := by
  unfold wrap32
  have h := Int.emod_lt_of_pos (n + 2147483648) (by norm_num : (0 : Int) < 4294967296)
  omega

end HDRPlay

namespace HDRPlay

/-- C1: `get_codec_side_data params ty` returns null when `params` has
zero side-data entries, and returns the first (under the at-most-one
precondition, the unique) entry whose type tag equals `ty` when such an
entry exists. -/
theorem get_codec_side_data_correct (p : AVCodecParameters) (ty : Nat) :
    (p.coded_side_data = [] → get_codec_side_data p ty = none) ∧
    (∀ sd ∈ p.coded_side_data, sd.type = ty →
      (∀ a ∈ p.coded_side_data, ∀ b ∈ p.coded_side_data,
        a.type = ty → b.type = ty → a = b) →
      get_codec_side_data p ty = some sd) := by
  constructor
  · intro h
    simp [get_codec_side_data, h]
  · intro sd hmem hty huniq
    have hsome : (p.coded_side_data.find? (fun x => x.type == ty)).isSome := by
      rw [List.find?_isSome]
      exact ⟨sd, hmem, by simp [hty]⟩
    obtain ⟨x, hx⟩ := Option.isSome_iff_exists.mp hsome
    have hxmem : x ∈ p.coded_side_data := List.mem_of_find?_eq_some hx
    have hxty : x.type = ty := by
      have := List.find?_some hx
      simpa using this
    have : x = sd := huniq x hxmem sd hmem hxty hty
    rw [get_codec_side_data, hx, this]

/-- Witness for C1 at a concrete input: one entry of type 3, looked up
by type 3. -/
theorem get_codec_side_data_correct_witness :
    get_codec_side_data paramsOne 3 = some sdMDCV :=
  (get_codec_side_data_correct paramsOne 3).2 sdMDCV (by decide) (by decide)
    (by decide)

/-- C2: `averror_from_errno` is deterministic and pure: its result is a
function of its argument alone, so equal arguments give equal results. -/
theorem averror_from_errno_deterministic (e1 e2 : Int) (h : e1 = e2) :
    averror_from_errno e1 = averror_from_errno e2 := by rw [h]

/-- Witness for C2 at the concrete error number 11. -/
theorem averror_from_errno_deterministic_witness :
    averror_from_errno 11 = averror_from_errno 11 :=
  averror_from_errno_deterministic 11 11 rfl

/-- C3: `get_averror_eof` and `get_averror_eagain` return the same
constant on every call: any two calls of either function agree. -/
theorem averror_accessors_constant (u v : Unit) :
    get_averror_eof u = get_averror_eof v ∧
    get_averror_eagain u = get_averror_eagain v :=
  ⟨rfl, rfl⟩

/-- C4: the exported constant `AV_NOPTS_VALUE_INT` equals the library's
no-timestamp sentinel `AV_NOPTS_VALUE`. -/
theorem av_nopts_value_int_eq_sentinel :
    AV_NOPTS_VALUE_INT = AV_NOPTS_VALUE ∧ AV_NOPTS_VALUE_INT = -(2 ^ 63) := by
  constructor
  · rfl
  · norm_num [AV_NOPTS_VALUE_INT, AV_NOPTS_VALUE]

/-- C5: every shim operation is stateless, idempotent and
side-effect-free: with the translation unit's globals threaded
explicitly, no call changes the state, each result equals the pure
function of the arguments (and lies in the signed 32-bit range for the
`int`-returning functions, the signed 64-bit range for the sentinel),
and an immediately repeated call returns the same result. -/
theorem shim_operations_stateless (s : ShimGlobals) (u : Unit) (e : Int)
    (p : AVCodecParameters) (ty : Nat) :
    ((get_averror_eof_st u s).2 = s ∧
     (averror_from_errno_st e s).2 = s ∧
     (get_averror_eagain_st u s).2 = s ∧
     (get_codec_side_data_st p ty s).2 = s ∧
     (read_AV_NOPTS_VALUE_INT_st s).2 = s) ∧
    ((get_averror_eof_st u s).1 = get_averror_eof u ∧
     (averror_from_errno_st e s).1 = averror_from_errno e ∧
     (get_averror_eagain_st u s).1 = get_averror_eagain u ∧
     (get_codec_side_data_st p ty s).1 = get_codec_side_data p ty ∧
     (read_AV_NOPTS_VALUE_INT_st initGlobals).1 = AV_NOPTS_VALUE_INT) ∧
    ((get_averror_eof_st u (get_averror_eof_st u s).2).1 =
       (get_averror_eof_st u s).1 ∧
     (averror_from_errno_st e (averror_from_errno_st e s).2).1 =
       (averror_from_errno_st e s).1 ∧
     (get_averror_eagain_st u (get_averror_eagain_st u s).2).1 =
       (get_averror_eagain_st u s).1 ∧
     (get_codec_side_data_st p ty (get_codec_side_data_st p ty s).2).1 =
       (get_codec_side_data_st p ty s).1 ∧
     (read_AV_NOPTS_VALUE_INT_st (read_AV_NOPTS_VALUE_INT_st s).2).1 =
       (read_AV_NOPTS_VALUE_INT_st s).1) ∧
    (-2147483648 ≤ get_averror_eof u ∧ get_averror_eof u < 2147483648 ∧
     -2147483648 ≤ averror_from_errno e ∧
     averror_from_errno e < 2147483648 ∧
     -(2 ^ 63) ≤ AV_NOPTS_VALUE_INT ∧ AV_NOPTS_VALUE_INT < 2 ^ 63) := by
  refine ⟨⟨rfl, rfl, rfl, rfl, rfl⟩, ⟨rfl, rfl, rfl, rfl, rfl⟩,
    ⟨rfl, rfl, rfl, rfl, rfl⟩, ?_, ?_, ?_, ?_, ?_, ?_⟩
  · exact wrap32_lb _
  · exact wrap32_ub _
  · exact wrap32_lb (-e)
  · exact wrap32_ub (-e)
  · norm_num [AV_NOPTS_VALUE_INT, AV_NOPTS_VALUE]
  · norm_num [AV_NOPTS_VALUE_INT, AV_NOPTS_VALUE]

/-- C6: `get_codec_side_data` signals no distinct error: it returns the
absence marker exactly when no entry of the requested type exists (in
particular both for empty side data and for a non-matching type, making
the two cases indistinguishable), and any non-null result is a reference
to an entry of the input (no allocation). -/
theorem get_codec_side_data_absence (p : AVCodecParameters) (ty : Nat) :
    (get_codec_side_data p ty = none ↔
      ∀ sd ∈ p.coded_side_data, sd.type ≠ ty) ∧
    (∀ sd, get_codec_side_data p ty = some sd →
      sd ∈ p.coded_side_data ∧ sd.type = ty) := by
  constructor
  · rw [get_codec_side_data, List.find?_eq_none]
    simp
  · intro sd h
    refine ⟨List.mem_of_find?_eq_some h, ?_⟩
    have := List.find?_some h
    simpa using this

/-- Witness for C6 at a concrete input: the empty parameters and the
one-entry parameters queried for a non-matching type both return the
absence marker. -/
theorem get_codec_side_data_absence_witness :
    get_codec_side_data paramsEmpty 3 = none ∧
    get_codec_side_data paramsOne 7 = none ∧
    sdMDCV ∈ paramsOne.coded_side_data ∧ sdMDCV.type = 3 :=
  ⟨(get_codec_side_data_absence paramsEmpty 3).1.mpr (by decide),
   (get_codec_side_data_absence paramsOne 7).1.mpr (by decide),
   (get_codec_side_data_absence paramsOne 3).2 sdMDCV (by decide)⟩

/-- C7 counterexample: the header does not declare five functions — it
declares four functions (get_averror_eof, averror_from_errno,
get_averror_eagain, get_codec_side_data) and one constant. -/
theorem header_five_functions_false :
    ¬ (headerFunctionDeclarations.length = 5 ∧
       headerConstantDeclarations.length = 1) := by decide

/-- C7 (amended): the public boundary of the shim is a C header that
declares exactly four functions and one constant. -/
theorem header_four_functions_one_constant :
    headerFunctionDeclarations.length = 4 ∧
    headerConstantDeclarations.length = 1 := by decide

/-- C8: the shim's error values are surfaced verbatim from the wrapped
library's macros, whose scheme encodes errors as negative values: the
EOF and EAGAIN accessors return exactly the macro expansions, and both
results are negative. -/
theorem shim_error_values_negative (u : Unit) :
    get_averror_eof u = AVERROR_EOF ∧
    get_averror_eagain u = AVERROR EAGAIN ∧
    get_averror_eof u < 0 ∧ get_averror_eagain u < 0 := by
  exact ⟨rfl, rfl, by unfold get_averror_eof; decide,
    by unfold get_averror_eagain; decide⟩

/-- C9: for every positive platform error number representable as a C
`int`, `averror_from_errno err` equals `-err`, the POSIX expansion of
the `AVERROR` macro. -/
theorem averror_from_errno_eq_neg (err : Int) (h1 : 0 < err)
    (h2 : err < 2147483648) : averror_from_errno err = -err := by
  unfold averror_from_errno AVERROR wrap32
  omega

/-- Witness for C9 at the concrete error number 11. -/
theorem averror_from_errno_eq_neg_witness : averror_from_errno 11 = -11 :=
  averror_from_errno_eq_neg 11 (by norm_num) (by norm_num)

/-- C10: the dedicated EAGAIN accessor agrees with applying the generic
errno conversion to the platform constant EAGAIN:
`get_averror_eagain () = averror_from_errno EAGAIN`. -/
theorem get_averror_eagain_eq_conversion (u : Unit) :
    get_averror_eagain u = averror_from_errno EAGAIN := rfl

end HDRPlay
